import Mathlib

/-!
Verification development for the RGM GPU-monitor repository.

The Rust sources are shallowly embedded:
* `src/data.rs` structures become Lean structures over `ℚ`/`ℕ`
  (f64 fields are modelled as rationals, u32/u64 fields as naturals);
* each fallible NVML driver query becomes an `Except String` input so that
  the pure logic of `monitor.rs` (`NvmlMonitor::new`, `get_static_info`,
  `sample`) is a total Lean function of the query outcomes;
* the consumer-side drain/evict loop of `RgmApp::update` (`src/app.rs`)
  becomes a fold over the list of drained samples;
* the sampler thread loop of `RgmApp::new` (`src/app.rs`) becomes a
  function over a finite trace of per-iteration outcomes.
-/

/-- `GpuData` from `src/data.rs`: one telemetry sample. -/
structure GpuData where
  timestamp : ℚ
  utilization : ℚ
  memory_used : ℚ
  memory_total : ℚ
  temperature : ℕ
  gpu_clock : ℕ
  memory_clock : ℕ
  power_usage : ℚ
  power_limit : ℚ
  fan_speed : ℕ
  pcie_throughput_tx : ℚ
  pcie_throughput_rx : ℚ
deriving Repr, DecidableEq

/-- `GpuInfo` from `src/data.rs`: static device identity. -/
structure GpuInfo where
  name : String
  uuid : String
  pcie_gen : ℕ
  pcie_width : ℕ
  driver_version : String
  vbios_version : String
deriving Repr, DecidableEq

/-- `ProcessInfo` from `src/data.rs`. -/
structure ProcessInfo where
  pid : ℕ
  name : String
  memory_usage : ℕ
  cpu_percent : ℚ
deriving Repr, DecidableEq

/-! ## History window (`RgmApp::update` drain loop, `src/app.rs` lines 60-73)

The Rust code, per drained sample:
```
let now = gpu_data.timestamp;
let window_start_time = (now - self.display_duration).max(0.0);
data.push_back(gpu_data);
while data.front().map_or(false, |d| d.timestamp < window_start_time) {
    data.pop_front();
}
```
-/

/-- `f64::max`, written out so that it evaluates by kernel reduction. -/
def qmax (a b : ℚ) : ℚ := if a ≤ b then b else a

lemma le_qmax_left (a b : ℚ) : a ≤ qmax a b := by
  unfold qmax
  split
  · assumption
  · exact le_refl a

/-- The inner `while` loop: pop from the front while the front sample's
timestamp is strictly below the window start. -/
def evictFront (ws : ℚ) : List GpuData → List GpuData
  | [] => []
  | d :: rest => if d.timestamp < ws then evictFront ws rest else d :: rest

/-- One insertion-plus-eviction pass of the drain loop for a single
drained sample `d`. -/
def drainStep (dd : ℚ) (buf : List GpuData) (d : GpuData) : List GpuData :=
  evictFront (qmax (d.timestamp - dd) 0) (buf ++ [d])

/-- The whole `while let Ok(..) = try_recv()` drain: fold the
insertion-plus-eviction pass over the drained samples in order. -/
def drainAll (dd : ℚ) (buf : List GpuData) (ds : List GpuData) : List GpuData :=
  ds.foldl (drainStep dd) buf

/-- Timestamp ordering between samples. -/
def tsLe (a b : GpuData) : Prop := a.timestamp ≤ b.timestamp

instance : DecidableRel tsLe := fun a b => inferInstanceAs (Decidable (a.timestamp ≤ b.timestamp))

lemma evictFront_subset (ws : ℚ) : ∀ l : List GpuData, ∀ d ∈ evictFront ws l, d ∈ l := by
  intro l
  induction l with
  | nil => intro d hd; simp [evictFront] at hd
  | cons a rest ih =>
    intro d hd
    by_cases h : a.timestamp < ws
    · simp only [evictFront, if_pos h] at hd
      exact List.mem_cons_of_mem a (ih d hd)
    · simpa [evictFront, if_neg h] using hd

lemma evictFront_pairwise (ws : ℚ) :
    ∀ l : List GpuData, l.Pairwise tsLe → (evictFront ws l).Pairwise tsLe := by
  intro l
  induction l with
  | nil => intro _; simp [evictFront]
  | cons a rest ih =>
    intro h
    by_cases hc : a.timestamp < ws
    · simpa [evictFront, if_pos hc] using ih (List.Pairwise.sublist (List.sublist_cons_self a rest) h)
    · simpa [evictFront, if_neg hc] using h

lemma evictFront_lb (ws : ℚ) :
    ∀ l : List GpuData, l.Pairwise tsLe → ∀ d ∈ evictFront ws l, ws ≤ d.timestamp := by
  intro l
  induction l with
  | nil => intro _ d hd; simp [evictFront] at hd
  | cons a rest ih =>
    intro h d hd
    rcases List.pairwise_cons.mp h with ⟨ha, hrest⟩
    by_cases hc : a.timestamp < ws
    · exact ih hrest d (by simpa [evictFront, if_pos hc] using hd)
    · simp only [evictFront, if_neg hc] at hd
      rcases List.mem_cons.mp hd with rfl | hmem
      · exact le_of_not_lt hc
      · exact le_trans (le_of_not_lt hc) (ha d hmem)

lemma drainAll_subset (dd : ℚ) :
    ∀ ds buf : List GpuData, ∀ d ∈ drainAll dd buf ds, d ∈ buf ∨ d ∈ ds := by
  intro ds
  induction ds with
  | nil => intro buf d hd; exact Or.inl hd
  | cons x rest ih =>
    intro buf d hd
    have hstep := ih (drainStep dd buf x) d hd
    rcases hstep with hbuf | hrest
    · have := evictFront_subset _ _ d hbuf
      rcases List.mem_append.mp this with h | h
      · exact Or.inl h
      · rcases List.mem_singleton.mp h with rfl
        exact Or.inr (List.mem_cons_self _ _)
    · exact Or.inr (List.mem_cons_of_mem x hrest)

lemma drainAll_pairwise (dd : ℚ) :
    ∀ ds buf : List GpuData, buf.Pairwise tsLe →
      (∀ e ∈ buf, ∀ f ∈ ds, tsLe e f) → ds.Pairwise tsLe →
      (drainAll dd buf ds).Pairwise tsLe := by
  intro ds
  induction ds with
  | nil => intro buf hbuf _ _; exact hbuf
  | cons x rest ih =>
    intro buf hbuf hcross hds
    rcases List.pairwise_cons.mp hds with ⟨hx, hrest⟩
    have hstep_pw : (drainStep dd buf x).Pairwise tsLe := by
      apply evictFront_pairwise
      rw [List.pairwise_append]
      refine ⟨hbuf, List.pairwise_singleton _ _, ?_⟩
      intro e he f hf
      rcases List.mem_singleton.mp hf with rfl
      exact hcross e he f (List.mem_cons_self f rest)
    refine ih (drainStep dd buf x) hstep_pw ?_ hrest
    intro e he f hf
    have := evictFront_subset _ _ e he
    rcases List.mem_append.mp this with h | h
    · exact hcross e h f (List.mem_cons_of_mem x hf)
    · rcases List.mem_singleton.mp h with rfl
      exact hx f hf

/-- A sample with a given timestamp and all other fields zero, used for
concrete window scenarios. -/
def tSample (t : ℚ) : GpuData :=
  { timestamp := t, utilization := 0, memory_used := 0, memory_total := 0
  , temperature := 0, gpu_clock := 0, memory_clock := 0, power_usage := 0
  , power_limit := 0, fan_speed := 0, pcie_throughput_tx := 0, pcie_throughput_rx := 0 }

/-- The spec's end-to-end windowing scenario input. -/
def scenarioSamples : List GpuData :=
  [tSample 0, tSample 2, tSample 4, tSample 6, tSample 11]

/-- C1: after each insertion-plus-eviction pass over a drained sequence of
samples with non-decreasing timestamps, no retained sample is older than
the newest sample's timestamp minus `display_duration`. -/
theorem history_window_bound (dd : ℚ) (ds : List GpuData) (dlast : GpuData)
    (hlast : ds.getLast? = some dlast)
    (hsort : ds.Pairwise tsLe) :
    ∀ d ∈ drainAll dd [] ds, dlast.timestamp - dd ≤ d.timestamp := by
  obtain ⟨ds₀, rfl⟩ : ∃ ds₀, ds = ds₀ ++ [dlast] := by
    rcases List.getLast?_eq_some_iff.mp hlast with ⟨l, hl⟩
    exact ⟨l, hl⟩
  intro d hd
  rw [drainAll, List.foldl_append] at hd
  rcases List.pairwise_append.mp hsort with ⟨hds₀, -, hcross⟩
  have hprev_pw : (drainAll dd [] ds₀).Pairwise tsLe :=
    drainAll_pairwise dd ds₀ [] List.Pairwise.nil (by simp) hds₀
  have hall_pw : ((drainAll dd [] ds₀) ++ [dlast]).Pairwise tsLe := by
    rw [List.pairwise_append]
    refine ⟨hprev_pw, List.pairwise_singleton _ _, ?_⟩
    intro e he f hf
    rcases List.mem_singleton.mp hf with rfl
    rcases drainAll_subset dd ds₀ [] e he with h | h
    · simp at h
    · exact hcross e h f (List.mem_singleton.mpr rfl)
  have hws : qmax (dlast.timestamp - dd) 0 ≤ d.timestamp := by
    have hd' : d ∈ evictFront (qmax (dlast.timestamp - dd) 0) ((drainAll dd [] ds₀) ++ [dlast]) := by
      simpa [drainStep] using hd
    exact evictFront_lb _ _ hall_pw d hd'
  exact le_trans (le_qmax_left _ _) hws

/-- C1 witness: the `[0, 2, 4, 6, 11]` / `display_duration = 10` scenario
evicts exactly the `0.0` sample, and the window bound holds at members of
the resulting window (instantiated at the retained `2.0` sample). -/
theorem history_window_bound_scenario :
    (drainAll 10 [] scenarioSamples).map (fun d => d.timestamp) = [2, 4, 6, 11]
    ∧ (tSample 11).timestamp - 10 ≤ (tSample 2).timestamp := by
  refine ⟨by with_unfolding_all decide, ?_⟩
  exact history_window_bound 10 scenarioSamples (tSample 11) (by with_unfolding_all decide)
    (by with_unfolding_all decide) (tSample 2) (by with_unfolding_all decide)

/-! ## Monitor (`src/monitor.rs`)

Each NVML driver call is an `Except String` input (`.error` = the call
failed with that driver error message), so the control flow of
`NvmlMonitor::new`, `get_static_info` and `sample` becomes a pure
function of the query outcomes. -/

instance {ε α : Type _} [DecidableEq ε] [DecidableEq α] : DecidableEq (Except ε α) := fun a b => by
  cases a with
  | ok x =>
    cases b with
    | ok y => exact decidable_of_iff (x = y) (by simp)
    | error f => exact isFalse (by simp)
  | error e =>
    cases b with
    | ok y => exact isFalse (by simp)
    | error f => exact decidable_of_iff (e = f) (by simp)

/-- `MonitorError` from `src/monitor.rs`.  `nvmlInit` is the
`#[from] NvmlError` variant, so it is also what every `?` on a driver
call converts into. -/
inductive MonitorError where
  | nvmlInit (msg : String)
  | deviceNotFound (idx : ℕ)
  | samplingFailed (msg : String)
deriving Repr, DecidableEq

/-- Discriminator for the `DeviceNotFound` variant. -/
def MonitorError.isDeviceNotFound : MonitorError → Bool
  | .deviceNotFound _ => true
  | _ => false

/-- The monitor state produced by `NvmlMonitor::new` (the NVML handle is
opaque; only the stored device index matters to the embedded logic). -/
structure NvmlMonitor where
  device_index : ℕ
deriving Repr, DecidableEq

/-- `NvmlMonitor::new` (`src/monitor.rs` lines 29-38): `Nvml::init()?`,
then `nvml.device_by_index(device_index)?` to validate the device.  Both
`?` operators convert the `NvmlError` through the `#[from]` conversion,
i.e. into `MonitorError::NvmlInit`. -/
def nvmlNew (initRes : Except String Unit) (deviceRes : Except String Unit)
    (device_index : ℕ) : Except MonitorError NvmlMonitor :=
  match initRes with
  | .error e => .error (.nvmlInit e)
  | .ok _ =>
    match deviceRes with
    | .error e => .error (.nvmlInit e)
    | .ok _ => .ok { device_index := device_index }

/-- Outcomes of the per-field driver calls made by `get_static_info`. -/
structure StaticQueries where
  device : Except String Unit
  name : Except String String
  uuid : Except String String
  sysDriverVersion : Except String String
  vbiosVersion : Except String String
  currentPcieLinkGen : Except String ℕ
  currentPcieLinkWidth : Except String ℕ
deriving Repr, DecidableEq

/-- `NvmlMonitor::get_static_info` (`src/monitor.rs` lines 42-57).  The
device lookup is `.unwrap()`ed — a failed lookup panics, modelled as
`none`; every per-field query falls back to a placeholder via
`unwrap_or` / `unwrap_or_else`. -/
def getStaticInfo (q : StaticQueries) : Option GpuInfo :=
  match q.device with
  | .error _ => none
  | .ok _ => some
    { name := match q.name with | .ok s => s | .error _ => "N/A"
    , uuid := match q.uuid with | .ok s => s | .error _ => "N/A"
    , driver_version := match q.sysDriverVersion with | .ok s => s | .error _ => "N/A"
    , vbios_version := match q.vbiosVersion with | .ok s => s | .error _ => "N/A"
    , pcie_gen := match q.currentPcieLinkGen with | .ok v => v | .error _ => 0
    , pcie_width := match q.currentPcieLinkWidth with | .ok v => v | .error _ => 0 }

/-- `mem` result of `device.memory_info()`: used and total bytes. -/
structure MemoryInfo where
  used : ℕ
  total : ℕ
deriving Repr, DecidableEq

/-- One entry of `device.running_graphics_processes()` plus the
`/proc/<pid>/comm` read for it.  `usedGpuMemory = none` models
`UsedGpuMemory::Unavailable`. -/
structure RawProcess where
  pid : ℕ
  usedGpuMemory : Option ℕ
  comm : Except String String
deriving Repr, DecidableEq

/-- The `ProcessInfo` pushed for one raw process entry (`src/monitor.rs`
lines 106-118 and identically `src/main.rs` lines 164-178). -/
def procEntryOf (p : RawProcess) : ProcessInfo :=
  { pid := p.pid
  , name := match p.comm with | .ok s => s.trim | .error _ => "unknown"
  , memory_usage := match p.usedGpuMemory with | some v => v | none => 0
  , cpu_percent := 0 }

/-- Outcomes of the driver calls made by one `NvmlMonitor::sample`. -/
structure DeviceQueries where
  device : Except String Unit
  utilization : Except String ℕ
  memory : Except String MemoryInfo
  temperature : Except String ℕ
  clockGraphics : Except String ℕ
  clockMemory : Except String ℕ
  powerUsage : Except String ℕ
  powerLimit : Except String ℕ
  fanSpeed : Except String ℕ
  pcieSend : Except String ℕ
  pcieReceive : Except String ℕ
  runningGraphicsProcesses : Except String (List RawProcess)
deriving DecidableEq

/-- `NvmlMonitor::sample` (`src/monitor.rs` lines 59-123).  The device
lookup and the three core queries are `?`-propagated (through the
`#[from]` conversion into `NvmlInit`); clocks and fan fall back to `0`
individually; the power pair and the PCIe pair are zeroed jointly when
either of their two queries fails; in the PCIe match the `Send` result is
bound to `rx` and the `Receive` result to `tx`, exactly as in the
source. -/
def nvmlSample (q : DeviceQueries) (elapsed : ℚ) :
    Except MonitorError (GpuData × List ProcessInfo) :=
  match q.device with
  | .error e => .error (.nvmlInit e)
  | .ok _ =>
    match q.utilization with
    | .error e => .error (.nvmlInit e)
    | .ok util =>
      match q.memory with
      | .error e => .error (.nvmlInit e)
      | .ok mem =>
        match q.temperature with
        | .error e => .error (.nvmlInit e)
        | .ok temp =>
          let gpu_clock := match q.clockGraphics with | .ok v => v | .error _ => 0
          let mem_clock := match q.clockMemory with | .ok v => v | .error _ => 0
          let pw : ℚ × ℚ :=
            match q.powerUsage, q.powerLimit with
            | .ok usage, .ok limit => ((usage : ℚ) / 1000, (limit : ℚ) / 1000)
            | _, _ => (0, 0)
          let fan_speed := match q.fanSpeed with | .ok v => v | .error _ => 0
          let pcie : ℚ × ℚ :=
            match q.pcieSend, q.pcieReceive with
            | .ok rx, .ok tx => ((tx : ℚ) / 1024, (rx : ℚ) / 1024)
            | _, _ => (0, 0)
          let gpu_data : GpuData :=
            { timestamp := elapsed
            , utilization := (util : ℚ)
            , memory_used := (mem.used : ℚ) / 1024 / 1024 / 1024
            , memory_total := (mem.total : ℚ) / 1024 / 1024 / 1024
            , temperature := temp
            , gpu_clock := gpu_clock
            , memory_clock := mem_clock
            , power_usage := pw.1
            , power_limit := pw.2
            , fan_speed := fan_speed
            , pcie_throughput_tx := pcie.1
            , pcie_throughput_rx := pcie.2 }
          let process_infos : List ProcessInfo :=
            match q.runningGraphicsProcesses with
            | .ok procs => procs.map procEntryOf
            | .error _ => []
          .ok (gpu_data, process_infos)

/-- The per-process loop of the `src/main.rs` sampler thread (lines
159-181): same entry construction, but an entry is only pushed when no
already-pushed entry has the same pid. -/
def mainLoopProcesses (procsRes : Except String (List RawProcess)) : List ProcessInfo :=
  match procsRes with
  | .error _ => []
  | .ok procs =>
    procs.foldl
      (fun acc p =>
        if acc.any (fun q => q.pid == p.pid) then acc
        else acc ++ [procEntryOf p])
      []

/-- Projection: the `GpuData` of a successful sample. -/
def okGpuData : Except MonitorError (GpuData × List ProcessInfo) → Option GpuData
  | .ok (gd, _) => some gd
  | .error _ => none

/-- Projection: the process list of a successful sample (empty on error). -/
def okProcList : Except MonitorError (GpuData × List ProcessInfo) → List ProcessInfo
  | .ok (_, ps) => ps
  | .error _ => []

/-! ## Sample error behavior and best-effort fields (C2, C9, C10) -/

lemma sample_isOk_eq (q : DeviceQueries) (e : ℚ) :
    (nvmlSample q e).isOk
      = (q.device.isOk && q.utilization.isOk && q.memory.isOk && q.temperature.isOk) := by
  obtain ⟨dev, util, mem, temp, cg, cm, pu, pl, fs, pcs, pcr, rgp⟩ := q
  cases dev <;> cases util <;> cases mem <;> cases temp <;>
    simp [nvmlSample, Except.isOk, Except.toBool]

lemma sample_ok_fields (q : DeviceQueries) (e : ℚ) (gd : GpuData) (ps : List ProcessInfo)
    (h : nvmlSample q e = .ok (gd, ps)) :
    gd.gpu_clock = (match q.clockGraphics with | .ok v => v | .error _ => 0)
    ∧ gd.memory_clock = (match q.clockMemory with | .ok v => v | .error _ => 0)
    ∧ gd.fan_speed = (match q.fanSpeed with | .ok v => v | .error _ => 0)
    ∧ (gd.power_usage, gd.power_limit)
        = (match q.powerUsage, q.powerLimit with
           | .ok usage, .ok limit => ((usage : ℚ) / 1000, (limit : ℚ) / 1000)
           | _, _ => ((0 : ℚ), (0 : ℚ)))
    ∧ (gd.pcie_throughput_tx, gd.pcie_throughput_rx)
        = (match q.pcieSend, q.pcieReceive with
           | .ok rx, .ok tx => ((tx : ℚ) / 1024, (rx : ℚ) / 1024)
           | _, _ => ((0 : ℚ), (0 : ℚ)))
    ∧ ps = (match q.runningGraphicsProcesses with
            | .ok procs => procs.map procEntryOf
            | .error _ => []) := by
  obtain ⟨dev, util, mem, temp, cg, cm, pu, pl, fs, pcs, pcr, rgp⟩ := q
  cases dev <;> cases util <;> cases mem <;> cases temp <;>
    simp [nvmlSample] at h
  obtain ⟨rfl, rfl⟩ := h
  refine ⟨rfl, rfl, rfl, ?_, ?_, rfl⟩
  · exact Prod.mk.eta
  · exact Prod.mk.eta

/-- C2 (amended): `sample()` fails exactly when the device handle lookup
or one of the three core-field queries (utilization, memory, temperature)
fails; on success, clocks and fan are individually best-effort, while the
power pair and the PCIe pair are zeroed jointly when either query of the
pair fails and keep their queried values when both succeed. -/
theorem sample_core_and_composite_amended (q : DeviceQueries) (e : ℚ) :
    ((nvmlSample q e).isOk
      = (q.device.isOk && q.utilization.isOk && q.memory.isOk && q.temperature.isOk))
    ∧ (∀ gd ps, nvmlSample q e = .ok (gd, ps) →
        gd.gpu_clock = (match q.clockGraphics with | .ok v => v | .error _ => 0)
        ∧ gd.memory_clock = (match q.clockMemory with | .ok v => v | .error _ => 0)
        ∧ gd.fan_speed = (match q.fanSpeed with | .ok v => v | .error _ => 0))
    ∧ (∀ gd ps, nvmlSample q e = .ok (gd, ps) →
        (q.powerUsage.isOk && q.powerLimit.isOk) = false →
        gd.power_usage = 0 ∧ gd.power_limit = 0)
    ∧ (∀ gd ps usage limit, nvmlSample q e = .ok (gd, ps) →
        q.powerUsage = .ok usage → q.powerLimit = .ok limit →
        gd.power_usage = (usage : ℚ) / 1000 ∧ gd.power_limit = (limit : ℚ) / 1000)
    ∧ (∀ gd ps, nvmlSample q e = .ok (gd, ps) →
        (q.pcieSend.isOk && q.pcieReceive.isOk) = false →
        gd.pcie_throughput_tx = 0 ∧ gd.pcie_throughput_rx = 0) := by
  refine ⟨sample_isOk_eq q e, ?_, ?_, ?_, ?_⟩
  · intro gd ps h
    obtain ⟨h1, h2, h3, -, -, -⟩ := sample_ok_fields q e gd ps h
    exact ⟨h1, h2, h3⟩
  · intro gd ps h hflags
    obtain ⟨-, -, -, hpw, -, -⟩ := sample_ok_fields q e gd ps h
    cases hpu : q.powerUsage with
    | error msg =>
      rw [hpu] at hpw
      simp at hpw
      exact hpw
    | ok usage =>
      cases hpl : q.powerLimit with
      | error msg =>
        rw [hpu, hpl] at hpw
        simp at hpw
        exact hpw
      | ok limit =>
        rw [hpu, hpl] at hflags
        simp [Except.isOk, Except.toBool] at hflags
  · intro gd ps usage limit h hpu hpl
    obtain ⟨-, -, -, hpw, -, -⟩ := sample_ok_fields q e gd ps h
    rw [hpu, hpl] at hpw
    simp at hpw
    exact hpw
  · intro gd ps h hflags
    obtain ⟨-, -, -, -, hpc, -⟩ := sample_ok_fields q e gd ps h
    cases hps : q.pcieSend with
    | error msg =>
      rw [hps] at hpc
      simp at hpc
      exact hpc
    | ok sv =>
      cases hpr : q.pcieReceive with
      | error msg =>
        rw [hps, hpr] at hpc
        simp at hpc
        exact hpc
      | ok rv =>
        rw [hps, hpr] at hflags
        simp [Except.isOk, Except.toBool] at hflags

/-- A sample tick in which every query succeeds except `power_usage`:
utilization 50 %, 1 GiB of 8 GiB memory used, 60 °C, clocks 1500/7000 MHz,
power limit 250000 mW, fan 30 %, PCIe Send 1024 KB/s, Receive 2048 KB/s. -/
def qPowerUsageFails : DeviceQueries :=
  { device := .ok (), utilization := .ok 50
  , memory := .ok { used := 1073741824, total := 8589934592 }
  , temperature := .ok 60, clockGraphics := .ok 1500, clockMemory := .ok 7000
  , powerUsage := .error "Unknown", powerLimit := .ok 250000
  , fanSpeed := .ok 30, pcieSend := .ok 1024, pcieReceive := .ok 2048
  , runningGraphicsProcesses := .ok [] }

/-- The `GpuData` that `nvmlSample` produces for `qPowerUsageFails`. -/
def gdPow : GpuData :=
  { timestamp := 0, utilization := 50, memory_used := 1, memory_total := 8
  , temperature := 60, gpu_clock := 1500, memory_clock := 7000
  , power_usage := 0, power_limit := 0, fan_speed := 30
  , pcie_throughput_tx := 2, pcie_throughput_rx := 1 }

/-- C2 counterexample: with only the `power_usage` query failing, the
sample still succeeds but `power_limit` — whose own query succeeded with
250000 mW, i.e. 250 W — is substituted with zero as well, so it does not
keep its queried value as the claim states. -/
theorem sample_power_pair_counterexample :
    (nvmlSample qPowerUsageFails 0).isOk = true
    ∧ (okGpuData (nvmlSample qPowerUsageFails 0)).map (fun gd => gd.power_limit) = some 0
    ∧ qPowerUsageFails.powerLimit = .ok 250000
    ∧ ((250000 : ℕ) : ℚ) / 1000 ≠ 0 := by
  refine ⟨rfl, rfl, rfl, by norm_num⟩

lemma sample_qPowerUsageFails_eq : nvmlSample qPowerUsageFails 0 = .ok (gdPow, []) := by
  simp only [nvmlSample, qPowerUsageFails]
  norm_num [gdPow, GpuData.mk.injEq, Prod.mk.injEq]

/-- C2 witness: the amended theorem applied at `qPowerUsageFails`. -/
theorem sample_power_pair_zero_instance :
    gdPow.power_usage = 0 ∧ gdPow.power_limit = 0 :=
  (sample_core_and_composite_amended qPowerUsageFails 0).2.2.1 gdPow []
    sample_qPowerUsageFails_eq rfl

/-- C9: in every successful sample where both PCIe throughput queries
succeed, the `Send`-counter value ends up in `pcie_throughput_rx` and the
`Receive`-counter value in `pcie_throughput_tx`, each divided by 1024 —
the two counters are cross-assigned exactly as the claim says. -/
theorem pcie_cross_assignment (q : DeviceQueries) (e : ℚ)
    (hdev : q.device.isOk = true) (hut : q.utilization.isOk = true)
    (hmem : q.memory.isOk = true) (htmp : q.temperature.isOk = true)
    (s r : ℕ) (hs : q.pcieSend = .ok s) (hr : q.pcieReceive = .ok r) :
    (okGpuData (nvmlSample q e)).map (fun gd => gd.pcie_throughput_rx)
      = some ((s : ℚ) / 1024)
    ∧ (okGpuData (nvmlSample q e)).map (fun gd => gd.pcie_throughput_tx)
      = some ((r : ℚ) / 1024) := by
  obtain ⟨dev, util, mem, temp, cg, cm, pu, pl, fs, pcs, pcr, rgp⟩ := q
  cases dev with
  | error msg => simp [Except.isOk, Except.toBool] at hdev
  | ok u =>
    cases util with
    | error msg => simp [Except.isOk, Except.toBool] at hut
    | ok uv =>
      cases mem with
      | error msg => simp [Except.isOk, Except.toBool] at hmem
      | ok mv =>
        cases temp with
        | error msg => simp [Except.isOk, Except.toBool] at htmp
        | ok tv =>
          simp only at hs hr
          subst hs
          subst hr
          simp [nvmlSample, okGpuData]

/-- C9 witness: at `qPowerUsageFails` (Send = 1024 KB/s, Receive =
2048 KB/s) the sample stores Send/1024 in `pcie_throughput_rx` and
Receive/1024 in `pcie_throughput_tx`. -/
theorem pcie_cross_assignment_instance :
    (okGpuData (nvmlSample qPowerUsageFails 0)).map (fun gd => gd.pcie_throughput_rx)
      = some (((1024 : ℕ) : ℚ) / 1024)
    ∧ (okGpuData (nvmlSample qPowerUsageFails 0)).map (fun gd => gd.pcie_throughput_tx)
      = some (((2048 : ℕ) : ℚ) / 1024) :=
  pcie_cross_assignment qPowerUsageFails 0 rfl rfl rfl rfl 1024 2048 rfl rfl

/-- C10: a process whose used GPU memory the driver reports as
`Unavailable` still yields a `ProcessEntry` with `memory_usage = 0`; the
entry is not dropped and the sample still succeeds. -/
theorem process_memory_unavailable (q : DeviceQueries) (e : ℚ)
    (hdev : q.device.isOk = true) (hut : q.utilization.isOk = true)
    (hmem : q.memory.isOk = true) (htmp : q.temperature.isOk = true)
    (procs : List RawProcess) (hpr : q.runningGraphicsProcesses = .ok procs)
    (p : RawProcess) (hp : p ∈ procs) (hmu : p.usedGpuMemory = none) :
    (nvmlSample q e).isOk = true
    ∧ procEntryOf p ∈ okProcList (nvmlSample q e)
    ∧ (procEntryOf p).pid = p.pid
    ∧ (procEntryOf p).memory_usage = 0 := by
  obtain ⟨dev, util, mem, temp, cg, cm, pu, pl, fs, pcs, pcr, rgp⟩ := q
  cases dev with
  | error msg => simp [Except.isOk, Except.toBool] at hdev
  | ok u =>
    cases util with
    | error msg => simp [Except.isOk, Except.toBool] at hut
    | ok uv =>
      cases mem with
      | error msg => simp [Except.isOk, Except.toBool] at hmem
      | ok mv =>
        cases temp with
        | error msg => simp [Except.isOk, Except.toBool] at htmp
        | ok tv =>
          simp only at hpr
          subst hpr
          refine ⟨rfl, ?_, rfl, ?_⟩
          · simp only [nvmlSample, okProcList]
            exact List.mem_map_of_mem procEntryOf hp
          · simp [procEntryOf, hmu]

/-- A raw process entry with `Unavailable` used-GPU-memory and a failed
`/proc/<pid>/comm` read. -/
def pUnavail : RawProcess := { pid := 4242, usedGpuMemory := none, comm := .error "denied" }

/-- Device queries identical to `qPowerUsageFails` except that the
process enumeration reports `pUnavail`. -/
def qProcUnavail : DeviceQueries :=
  { device := .ok (), utilization := .ok 50
  , memory := .ok { used := 1073741824, total := 8589934592 }
  , temperature := .ok 60, clockGraphics := .ok 1500, clockMemory := .ok 7000
  , powerUsage := .error "Unknown", powerLimit := .ok 250000
  , fanSpeed := .ok 30, pcieSend := .ok 1024, pcieReceive := .ok 2048
  , runningGraphicsProcesses := .ok [pUnavail] }

/-- C10 witness: the theorem applied at `qProcUnavail` and `pUnavail`. -/
theorem process_memory_unavailable_instance :
    (nvmlSample qProcUnavail 0).isOk = true
    ∧ procEntryOf pUnavail ∈ okProcList (nvmlSample qProcUnavail 0)
    ∧ (procEntryOf pUnavail).pid = pUnavail.pid
    ∧ (procEntryOf pUnavail).memory_usage = 0 :=
  process_memory_unavailable qProcUnavail 0 rfl rfl rfl rfl [pUnavail] rfl pUnavail
    (List.mem_singleton.mpr rfl) rfl

/-- C4 (amended): whenever the device handle lookup succeeds,
`get_static_info` returns a complete `GpuInfo` in which every failed
per-field query is substituted with its placeholder ("N/A" for strings,
0 for PCIe gen/width) and every successful query keeps its value.  (When
the device lookup itself fails, the `unwrap()` panics — see the
counterexample.) -/
theorem static_info_fallback (q : StaticQueries) (hdev : q.device.isOk = true) :
    (getStaticInfo q).isSome = true
    ∧ (q.name.isOk = false → (getStaticInfo q).map (fun i => i.name) = some "N/A")
    ∧ (∀ s, q.name = .ok s → (getStaticInfo q).map (fun i => i.name) = some s)
    ∧ (q.uuid.isOk = false → (getStaticInfo q).map (fun i => i.uuid) = some "N/A")
    ∧ (∀ s, q.uuid = .ok s → (getStaticInfo q).map (fun i => i.uuid) = some s)
    ∧ (q.sysDriverVersion.isOk = false →
        (getStaticInfo q).map (fun i => i.driver_version) = some "N/A")
    ∧ (∀ s, q.sysDriverVersion = .ok s →
        (getStaticInfo q).map (fun i => i.driver_version) = some s)
    ∧ (q.vbiosVersion.isOk = false →
        (getStaticInfo q).map (fun i => i.vbios_version) = some "N/A")
    ∧ (∀ s, q.vbiosVersion = .ok s →
        (getStaticInfo q).map (fun i => i.vbios_version) = some s)
    ∧ (q.currentPcieLinkGen.isOk = false →
        (getStaticInfo q).map (fun i => i.pcie_gen) = some 0)
    ∧ (∀ v, q.currentPcieLinkGen = .ok v →
        (getStaticInfo q).map (fun i => i.pcie_gen) = some v)
    ∧ (q.currentPcieLinkWidth.isOk = false →
        (getStaticInfo q).map (fun i => i.pcie_width) = some 0)
    ∧ (∀ v, q.currentPcieLinkWidth = .ok v →
        (getStaticInfo q).map (fun i => i.pcie_width) = some v) := by
  obtain ⟨dev, nm, uu, dv, vb, pg, pw⟩ := q
  cases dev with
  | error msg => simp [Except.isOk, Except.toBool] at hdev
  | ok u =>
    refine ⟨rfl, ?_, ?_, ?_, ?_, ?_, ?_, ?_, ?_, ?_, ?_, ?_, ?_⟩
    · intro h
      cases nm with
      | ok s => simp [Except.isOk, Except.toBool] at h
      | error msg => rfl
    · intro s hs
      simp only at hs
      subst hs
      rfl
    · intro h
      cases uu with
      | ok s => simp [Except.isOk, Except.toBool] at h
      | error msg => rfl
    · intro s hs
      simp only at hs
      subst hs
      rfl
    · intro h
      cases dv with
      | ok s => simp [Except.isOk, Except.toBool] at h
      | error msg => rfl
    · intro s hs
      simp only at hs
      subst hs
      rfl
    · intro h
      cases vb with
      | ok s => simp [Except.isOk, Except.toBool] at h
      | error msg => rfl
    · intro s hs
      simp only at hs
      subst hs
      rfl
    · intro h
      cases pg with
      | ok v => simp [Except.isOk, Except.toBool] at h
      | error msg => rfl
    · intro v hv
      simp only at hv
      subst hv
      rfl
    · intro h
      cases pw with
      | ok v => simp [Except.isOk, Except.toBool] at h
      | error msg => rfl
    · intro v hv
      simp only at hv
      subst hv
      rfl

/-- Static queries in which the device handle lookup fails (for example
the GPU fell off the bus after construction) while every per-field query
would have succeeded. -/
def qDeviceLost : StaticQueries :=
  { device := .error "GpuIsLost", name := .ok "NVIDIA GeForce RTX 3080"
  , uuid := .ok "GPU-11111111", sysDriverVersion := .ok "555.42"
  , vbiosVersion := .ok "94.02.71", currentPcieLinkGen := .ok 4
  , currentPcieLinkWidth := .ok 16 }

/-- C4 counterexample: `get_static_info` calls
`device_by_index(..).unwrap()`, so when that lookup fails the call
panics (modelled as `none`) instead of returning a placeholder-filled
`StaticInfo` — "never panics" does not hold of the code. -/
theorem static_info_device_lost_counterexample : getStaticInfo qDeviceLost = none := rfl

/-- Static queries with a live device but several failed field queries. -/
def qFieldsFail : StaticQueries :=
  { device := .ok (), name := .error "Unknown", uuid := .ok "GPU-22222222"
  , sysDriverVersion := .error "Unknown", vbiosVersion := .ok "90.01.01"
  , currentPcieLinkGen := .error "NotSupported", currentPcieLinkWidth := .ok 8 }

/-- C4 witness: the amended theorem applied at `qFieldsFail`. -/
theorem static_info_fallback_instance :
    (getStaticInfo qFieldsFail).isSome = true
    ∧ (getStaticInfo qFieldsFail).map (fun i => i.name) = some "N/A"
    ∧ (getStaticInfo qFieldsFail).map (fun i => i.uuid) = some "GPU-22222222"
    ∧ (getStaticInfo qFieldsFail).map (fun i => i.pcie_gen) = some 0
    ∧ (getStaticInfo qFieldsFail).map (fun i => i.pcie_width) = some 8 := by
  have h := static_info_fallback qFieldsFail rfl
  exact ⟨h.1, h.2.1 rfl, h.2.2.2.2.1 "GPU-22222222" rfl,
    h.2.2.2.2.2.2.2.2.2.1 rfl, h.2.2.2.2.2.2.2.2.2.2.2.2 8 rfl⟩

/-- C6: an invalid device index makes `NvmlMonitor::new` fail — so no
monitor is produced — but through the `#[from]` conversion the error kind
is `NvmlInit`, not `DeviceNotFound`; the `DeviceNotFound` variant is never
constructed.  A driver initialization failure also yields `NvmlInit`. -/
theorem new_bad_index_error_kind :
    nvmlNew (.ok ()) (.error "InvalidArg") 999 = .error (.nvmlInit "InvalidArg")
    ∧ (nvmlNew (.ok ()) (.error "InvalidArg") 999).isOk = false
    ∧ (match nvmlNew (.ok ()) (.error "InvalidArg") 999 with
       | .error err => err.isDeviceNotFound
       | .ok _ => false) = false
    ∧ nvmlNew (.error "DriverNotLoaded") (.ok ()) 0 = .error (.nvmlInit "DriverNotLoaded")
    ∧ (nvmlNew (.error "DriverNotLoaded") (.ok ()) 0).isOk = false :=
  ⟨rfl, rfl, rfl, rfl, rfl⟩

/-! ## Renderer plot series (`RgmApp::update`, `src/app.rs` lines 132-154)

```
let latest_timestamp = data_guard.back().map_or(0.0, |d| d.timestamp);
let to_relative_points = |mapper| data_guard.iter()
    .map(|data| { let x = latest_timestamp - data.timestamp; [x.max(0.0), mapper(data)] }).collect();
let gpu_util_points = to_relative_points(|d| d.utilization as f64);
let memory_points = to_relative_points(|d| d.memory_used / d.memory_total * 100.0);
let temp_points = to_relative_points(|d| d.temperature as f64);
let power_points = data_guard.iter().filter(|data| data.power_limit > 0.0)
    .map(|data| { let x = latest_timestamp - data.timestamp;
                  [x.max(0.0), data.power_usage / data.power_limit * 100.0] }).collect();
```
-/

/-- The `to_relative_points` closure. -/
def toRelativePoints (buf : List GpuData) (latestTs : ℚ) (mapper : GpuData → ℚ) :
    List (ℚ × ℚ) :=
  buf.map (fun d => (qmax (latestTs - d.timestamp) 0, mapper d))

/-- `gpu_util_points`. -/
def gpuUtilPoints (buf : List GpuData) (latestTs : ℚ) : List (ℚ × ℚ) :=
  toRelativePoints buf latestTs (fun d => d.utilization)

/-- `memory_points` — note the unguarded division by `memory_total`. -/
def memoryPoints (buf : List GpuData) (latestTs : ℚ) : List (ℚ × ℚ) :=
  toRelativePoints buf latestTs (fun d => d.memory_used / d.memory_total * 100)

/-- `temp_points`. -/
def tempPoints (buf : List GpuData) (latestTs : ℚ) : List (ℚ × ℚ) :=
  toRelativePoints buf latestTs (fun d => (d.temperature : ℚ))

/-- `power_points`, with its `power_limit > 0.0` guard filter. -/
def powerPoints (buf : List GpuData) (latestTs : ℚ) : List (ℚ × ℚ) :=
  (buf.filter fun d => decide (0 < d.power_limit)).map
    (fun d => (qmax (latestTs - d.timestamp) 0, d.power_usage / d.power_limit * 100))

/-- C7: a sample with `power_limit == 0` contributes no point to the
power-percentage series, while it contributes its values, unmodified, to
the utilization, memory-percentage, and temperature series. -/
theorem power_limit_zero_sample_series (xs ys : List GpuData) (s : GpuData) (ts : ℚ)
    (h : s.power_limit = 0) :
    powerPoints (xs ++ s :: ys) ts = powerPoints (xs ++ ys) ts
    ∧ gpuUtilPoints (xs ++ s :: ys) ts
        = gpuUtilPoints xs ts ++ (qmax (ts - s.timestamp) 0, s.utilization) :: gpuUtilPoints ys ts
    ∧ memoryPoints (xs ++ s :: ys) ts
        = memoryPoints xs ts
            ++ (qmax (ts - s.timestamp) 0, s.memory_used / s.memory_total * 100)
              :: memoryPoints ys ts
    ∧ tempPoints (xs ++ s :: ys) ts
        = tempPoints xs ts ++ (qmax (ts - s.timestamp) 0, (s.temperature : ℚ)) :: tempPoints ys ts := by
  refine ⟨?_, ?_, ?_, ?_⟩
  · simp [powerPoints, List.filter_append, List.filter_cons, h]
  · simp [gpuUtilPoints, toRelativePoints]
  · simp [memoryPoints, toRelativePoints]
  · simp [tempPoints, toRelativePoints]

/-- C7 witness: the theorem applied to a one-sample window holding the
zero-power-limit sample `tSample 2` with latest timestamp 11. -/
theorem power_limit_zero_sample_series_instance :
    powerPoints ([] ++ tSample 2 :: []) 11 = powerPoints ([] ++ []) 11
    ∧ gpuUtilPoints ([] ++ tSample 2 :: []) 11
        = gpuUtilPoints [] 11
            ++ (qmax (11 - (tSample 2).timestamp) 0, (tSample 2).utilization) :: gpuUtilPoints [] 11
    ∧ memoryPoints ([] ++ tSample 2 :: []) 11
        = memoryPoints [] 11
            ++ (qmax (11 - (tSample 2).timestamp) 0,
                  (tSample 2).memory_used / (tSample 2).memory_total * 100) :: memoryPoints [] 11
    ∧ tempPoints ([] ++ tSample 2 :: []) 11
        = tempPoints [] 11
            ++ (qmax (11 - (tSample 2).timestamp) 0, ((tSample 2).temperature : ℚ))
              :: tempPoints [] 11 :=
  power_limit_zero_sample_series [] [] (tSample 2) 11 rfl

/-- A sample whose reported `memory_total` is zero (and `power_limit`
zero as well, for contrast with the guarded power series). -/
def memZeroSample : GpuData :=
  { timestamp := 5, utilization := 10, memory_used := 1, memory_total := 0
  , temperature := 40, gpu_clock := 100, memory_clock := 200, power_usage := 30
  , power_limit := 0, fan_speed := 20, pcie_throughput_tx := 0, pcie_throughput_rx := 0 }

/-- C5: the power series guards its zero denominator by filtering, but
the memory-percentage series has no guard at all — a sample with
`memory_total == 0` still contributes a point whose y-value is computed
as `memory_used / memory_total * 100` (NaN/∞ in the f64 of the code),
contradicting the claim that every percentage computation is guarded. -/
theorem memory_series_unguarded_bug :
    memZeroSample.memory_total = 0
    ∧ (memoryPoints [memZeroSample] 5).length = 1
    ∧ memoryPoints [memZeroSample] 5
        = [(qmax ((5 : ℚ) - 5) 0, memZeroSample.memory_used / memZeroSample.memory_total * 100)]
    ∧ powerPoints [memZeroSample] 5 = [] := by
  refine ⟨rfl, rfl, ?_, ?_⟩
  · simp [memoryPoints, toRelativePoints, memZeroSample]
  · simp [powerPoints, memZeroSample]

/-! ## Sampler loop (`RgmApp::new`, `src/app.rs` lines 28-42)

```
loop {
    match monitor.sample() {
        Ok((gpu_data, proc_infos)) => {
            if sender.send((gpu_data, proc_infos)).is_err() { break; }
        }
        Err(e) => { eprintln!("Error sampling GPU data: {}", e); }
    }
    thread::sleep(Duration::from_millis(100));
}
```
-/

/-- The outcome of one loop iteration: either `monitor.sample()` failed
with an error, or it produced a payload and the subsequent `send` either
succeeded (`sendOk = true`) or failed because the receiver was dropped. -/
inductive TickResult where
  | sampleErr (msg : String)
  | sampleOk (payload : GpuData × List ProcessInfo) (sendOk : Bool)

/-- Run the sampler loop over a finite trace of iteration outcomes.
Returns the sequence of payloads actually published to the channel and
whether the loop exited via the `break` (send failure). -/
def samplerRun : List TickResult → List (GpuData × List ProcessInfo) × Bool
  | [] => ([], false)
  | .sampleErr _ :: rest => samplerRun rest
  | .sampleOk m sendOk :: rest =>
    if sendOk then
      ((samplerRun rest).1.cons m, (samplerRun rest).2)
    else ([], true)

/-- C8: an iteration whose sample fails publishes nothing and the loop
goes on to behave exactly as it would on the remaining trace; and the
loop breaks out early exactly when some iteration's sample succeeded but
the channel send failed (receiver dropped). -/
theorem sampler_error_continues_and_break (msg : String) (rest ticks : List TickResult) :
    samplerRun (.sampleErr msg :: rest) = samplerRun rest
    ∧ ((samplerRun ticks).2 = true
        ↔ ∃ m, TickResult.sampleOk m false ∈ ticks) := by
  refine ⟨rfl, ?_⟩
  induction ticks with
  | nil => simp [samplerRun]
  | cons t rest2 ih =>
    cases t with
    | sampleErr m2 => simpa [samplerRun] using ih
    | sampleOk m2 sendOk =>
      cases sendOk with
      | true => simpa [samplerRun] using ih
      | false => simp [samplerRun]

/-! ## Process-id deduplication (C3)

`NvmlMonitor::sample` (`src/monitor.rs`) pushes every enumerated process;
the `src/main.rs` sampler loop instead guards each push with
`!process_infos.iter().any(|p| p.pid == proc.pid)`. -/

/-- The fold step of the `src/main.rs` dedup loop. -/
def dedupStep (acc : List ProcessInfo) (p : RawProcess) : List ProcessInfo :=
  if acc.any (fun q => q.pid == p.pid) then acc else acc ++ [procEntryOf p]

lemma mainLoopProcesses_eq (procs : List RawProcess) :
    mainLoopProcesses (.ok procs) = procs.foldl dedupStep [] := rfl

/-- Number of entries of `l` carrying pid `n`. -/
def countPid (l : List ProcessInfo) (n : ℕ) : ℕ := l.countP (fun e => e.pid == n)

lemma countPid_append (l₁ l₂ : List ProcessInfo) (n : ℕ) :
    countPid (l₁ ++ l₂) n = countPid l₁ n + countPid l₂ n :=
  List.countP_append _ _ _

lemma countPid_singleton (e : ProcessInfo) (n : ℕ) :
    countPid [e] n = if e.pid = n then 1 else 0 := by
  by_cases h : e.pid = n <;> simp [countPid, h]

lemma dedupStep_count_le (acc : List ProcessInfo) (p : RawProcess)
    (hle : ∀ m, countPid acc m ≤ 1) (n : ℕ) : countPid (dedupStep acc p) n ≤ 1 := by
  unfold dedupStep
  cases hany : acc.any (fun q => q.pid == p.pid) with
  | true => simpa using hle n
  | false =>
    have h0 : countPid acc p.pid = 0 := by
      rw [countPid, List.countP_eq_zero]
      intro e he
      have := List.any_eq_false.mp hany e he
      simpa using this
    simp only [Bool.false_eq_true, if_false]
    rw [countPid_append, countPid_singleton]
    by_cases hpn : p.pid = n
    · have h0n : countPid acc n = 0 := hpn ▸ h0
      rw [h0n]
      simp [procEntryOf, hpn]
    · have : (procEntryOf p).pid = n ↔ False := by simp [procEntryOf, hpn]
      rw [if_neg (by simpa using this)]
      simpa using hle n

lemma fold_count_le :
    ∀ (rest : List RawProcess) (acc : List ProcessInfo),
      (∀ m, countPid acc m ≤ 1) → ∀ n, countPid (rest.foldl dedupStep acc) n ≤ 1 := by
  intro rest
  induction rest with
  | nil => intro acc h n; exact h n
  | cons p rest ih =>
    intro acc h n
    rw [List.foldl_cons]
    exact ih (dedupStep acc p) (dedupStep_count_le acc p h) n

lemma dedupStep_subset (acc : List ProcessInfo) (p : RawProcess) : acc ⊆ dedupStep acc p := by
  unfold dedupStep
  split
  · exact fun a ha => ha
  · exact fun a ha => List.mem_append_left _ ha

lemma fold_subset :
    ∀ (rest : List RawProcess) (acc : List ProcessInfo), acc ⊆ rest.foldl dedupStep acc := by
  intro rest
  induction rest with
  | nil => intro acc a ha; exact ha
  | cons p rest ih =>
    intro acc a ha
    rw [List.foldl_cons]
    exact ih (dedupStep acc p) (dedupStep_subset acc p ha)

lemma dedupStep_exists_pid (acc : List ProcessInfo) (p : RawProcess) :
    ∃ e ∈ dedupStep acc p, e.pid = p.pid := by
  unfold dedupStep
  cases hany : acc.any (fun q => q.pid == p.pid) with
  | true =>
    obtain ⟨e, he, hbeq⟩ := List.any_eq_true.mp hany
    exact ⟨e, by simp [he], by simpa using hbeq⟩
  | false =>
    refine ⟨procEntryOf p, ?_, rfl⟩
    simp

lemma fold_mem_pid :
    ∀ (rest : List RawProcess) (acc : List ProcessInfo) (r : RawProcess), r ∈ rest →
      ∃ e ∈ rest.foldl dedupStep acc, e.pid = r.pid := by
  intro rest
  induction rest with
  | nil => intro acc r hr; simp at hr
  | cons p rest ih =>
    intro acc r hr
    rw [List.foldl_cons]
    rcases List.mem_cons.mp hr with rfl | hmem
    · obtain ⟨e, he, hpid⟩ := dedupStep_exists_pid acc r
      exact ⟨e, fold_subset rest (dedupStep acc r) he, hpid⟩
    · exact ih (dedupStep acc p) r hmem

lemma fold_first_wins :
    ∀ (rest seen : List RawProcess) (acc : List ProcessInfo),
      (∀ e ∈ acc, ∃ pr, (seen.find? fun q2 => q2.pid == e.pid) = some pr ∧ e = procEntryOf pr) →
      (∀ n : ℕ, (∃ q ∈ seen, q.pid = n) ↔ (∃ e ∈ acc, e.pid = n)) →
      ∀ e ∈ rest.foldl dedupStep acc,
        ∃ pr, ((seen ++ rest).find? fun q2 => q2.pid == e.pid) = some pr ∧ e = procEntryOf pr := by
  intro rest
  induction rest with
  | nil =>
    intro seen acc hP hQ e he
    simpa using hP e he
  | cons p rest ih =>
    intro seen acc hP hQ e he
    rw [List.foldl_cons] at he
    have hP2 : ∀ e2 ∈ dedupStep acc p,
        ∃ pr, ((seen ++ [p]).find? fun q2 => q2.pid == e2.pid) = some pr ∧ e2 = procEntryOf pr := by
      intro e2 he2
      unfold dedupStep at he2
      cases hany : acc.any (fun q => q.pid == p.pid) with
      | true =>
        rw [hany] at he2
        simp only [if_true] at he2
        obtain ⟨pr, hfind, hpr⟩ := hP e2 he2
        refine ⟨pr, ?_, hpr⟩
        rw [List.find?_append, hfind]
        rfl
      | false =>
        rw [hany] at he2
        simp only [Bool.false_eq_true, if_false] at he2
        rcases List.mem_append.mp he2 with h | h
        · obtain ⟨pr, hfind, hpr⟩ := hP e2 h
          refine ⟨pr, ?_, hpr⟩
          rw [List.find?_append, hfind]
          rfl
        · rcases List.mem_singleton.mp h with rfl
          refine ⟨p, ?_, rfl⟩
          have hnone : (seen.find? fun q2 => q2.pid == (procEntryOf p).pid) = none := by
            rw [List.find?_eq_none]
            intro q hq hbeq
            have hqp : q.pid = p.pid := by simpa [procEntryOf] using hbeq
            obtain ⟨e3, he3, he3p⟩ := (hQ p.pid).mp ⟨q, hq, hqp⟩
            have : acc.any (fun q3 => q3.pid == p.pid) = true :=
              List.any_eq_true.mpr ⟨e3, he3, by simpa using he3p⟩
            rw [hany] at this
            exact Bool.false_ne_true this
          rw [List.find?_append, hnone]
          simp [procEntryOf, List.find?]
    have hQ2 : ∀ n : ℕ,
        (∃ q ∈ seen ++ [p], q.pid = n) ↔ (∃ e2 ∈ dedupStep acc p, e2.pid = n) := by
      intro n
      unfold dedupStep
      cases hany : acc.any (fun q => q.pid == p.pid) with
      | true =>
        simp only [if_true]
        constructor
        · rintro ⟨q, hq, hqn⟩
          rcases List.mem_append.mp hq with h | h
          · exact (hQ n).mp ⟨q, h, hqn⟩
          · rcases List.mem_singleton.mp h with rfl
            obtain ⟨e3, he3, hb⟩ := List.any_eq_true.mp hany
            have he3p : e3.pid = q.pid := by simpa using hb
            exact ⟨e3, he3, by rw [he3p, hqn]⟩
        · rintro ⟨e3, he3, hn⟩
          obtain ⟨q, hq, hqn⟩ := (hQ n).mpr ⟨e3, he3, hn⟩
          exact ⟨q, List.mem_append_left _ hq, hqn⟩
      | false =>
        simp only [Bool.false_eq_true, if_false]
        constructor
        · rintro ⟨q, hq, hqn⟩
          rcases List.mem_append.mp hq with h | h
          · obtain ⟨e3, he3, hn⟩ := (hQ n).mp ⟨q, h, hqn⟩
            exact ⟨e3, List.mem_append_left _ he3, hn⟩
          · rcases List.mem_singleton.mp h with rfl
            exact ⟨procEntryOf q, List.mem_append_right _ (List.mem_singleton.mpr rfl), hqn⟩
        · rintro ⟨e3, he3, hn⟩
          rcases List.mem_append.mp he3 with h | h
          · obtain ⟨q, hq, hqn⟩ := (hQ n).mpr ⟨e3, h, hn⟩
            exact ⟨q, List.mem_append_left _ hq, hqn⟩
          · rcases List.mem_singleton.mp h with rfl
            exact ⟨p, List.mem_append_right _ (List.mem_singleton.mpr rfl), hn⟩
    have := ih (seen ++ [p]) (dedupStep acc p) hP2 hQ2 e he
    simpa [List.append_assoc] using this

/-- C3 (amended): the `src/main.rs` sampler loop deduplicates by pid with
the first occurrence winning — for every reported process exactly one
entry with its pid is in the produced list, and every produced entry is
built from the first raw entry carrying its pid.  (`NvmlMonitor::sample`
in `src/monitor.rs` performs no such deduplication — see the
counterexample.) -/
theorem main_loop_dedup_first_wins (procs : List RawProcess) (r : RawProcess)
    (hr : r ∈ procs) :
    countPid (mainLoopProcesses (.ok procs)) r.pid = 1
    ∧ ∀ e ∈ mainLoopProcesses (.ok procs),
        ∃ pr, (procs.find? fun q2 => q2.pid == e.pid) = some pr ∧ e = procEntryOf pr := by
  constructor
  · rw [mainLoopProcesses_eq]
    have hle : countPid (procs.foldl dedupStep []) r.pid ≤ 1 :=
      fold_count_le procs [] (by intro m; simp [countPid]) r.pid
    have hge : 0 < countPid (procs.foldl dedupStep []) r.pid := by
      obtain ⟨e, he, hpid⟩ := fold_mem_pid procs [] r hr
      rw [countPid]
      exact List.countP_pos_iff.mpr ⟨e, he, by simpa using hpid⟩
    omega
  · intro e he
    rw [mainLoopProcesses_eq] at he
    have := fold_first_wins procs [] []
      (by intro e2 he2; simp at he2) (by intro n; simp) e he
    simpa using this

/-- Two raw process entries sharing pid 42, as the driver may report for
one process in two usage contexts. -/
def pDupA : RawProcess := { pid := 42, usedGpuMemory := some 1048576, comm := .ok "python3" }

/-- Second entry with the same pid as `pDupA`. -/
def pDupB : RawProcess := { pid := 42, usedGpuMemory := none, comm := .ok "python3" }

/-- Device queries whose process enumeration reports pid 42 twice. -/
def qDupProcs : DeviceQueries :=
  { device := .ok (), utilization := .ok 50
  , memory := .ok { used := 1073741824, total := 8589934592 }
  , temperature := .ok 60, clockGraphics := .ok 1500, clockMemory := .ok 7000
  , powerUsage := .ok 100000, powerLimit := .ok 250000
  , fanSpeed := .ok 30, pcieSend := .ok 1024, pcieReceive := .ok 2048
  , runningGraphicsProcesses := .ok [pDupA, pDupB] }

/-- C3 counterexample: `NvmlMonitor::sample` returns both entries for
pid 42 — the returned list is not deduplicated, so it is not the case
that exactly one `ProcessEntry` with that id is present. -/
theorem monitor_sample_dup_pid_counterexample :
    (nvmlSample qDupProcs 0).isOk = true
    ∧ ((okProcList (nvmlSample qDupProcs 0)).filter fun e => e.pid == 42).length = 2 :=
  ⟨rfl, rfl⟩

/-- C3 witness: the amended dedup theorem applied to the duplicated
enumeration `[pDupA, pDupB]`. -/
theorem main_loop_dedup_instance :
    countPid (mainLoopProcesses (.ok [pDupA, pDupB])) pDupA.pid = 1 :=
  (main_loop_dedup_first_wins [pDupA, pDupB] pDupA (List.mem_cons_self _ _)).1
